import Mathlib

/-!
Verification development for the gotion MCP/OAuth core.

This file shallowly embeds the protocol core of the gotion CLI:
the JSON-RPC-over-HTTP transport (`internal/notion/mcp/client.go`),
the OAuth PKCE generator and refresh path (`internal/notion/mcp`,
OAuth client file), the token refresh gate (`cmd` root command), and
the loopback OAuth callback server (`internal/gotion` callback file).
Pure computations are translated into Lean functions; I/O boundaries
(JSON unmarshalling of wire bytes, the SHA-256 library primitive, the
random source, HTTP) are passed in as explicit oracle parameters so the
surrounding control flow stays exactly the source's.
-/

namespace Gotion

/-- A model of a JSON value, standing for the bytes a `json.RawMessage`
holds.  Numbers are restricted to integers, which covers every value the
embedded code inspects. -/
inductive Json where
  | null : Json
  | bool (b : Bool) : Json
  | num (n : Int) : Json
  | str (s : String) : Json
  | arr (elems : List Json) : Json
  | obj (fields : List (String × Json)) : Json

mutual

/-- Canonical rendering of a JSON value, standing for the raw text of the
`json.RawMessage` it models (`string(r.Error)` in the source). -/
def Json.render : Json → String
  | .null => "null"
  | .bool true => "true"
  | .bool false => "false"
  | .num n => toString n
  | .str s => "\"" ++ s ++ "\""
  | .arr elems => "[" ++ Json.renderElems elems ++ "]"
  | .obj fields => "\x7b" ++ Json.renderFields fields ++ "\x7d"

/-- Comma-separated rendering of array elements. -/
def Json.renderElems : List Json → String
  | [] => ""
  | [j] => j.render
  | j :: rest => j.render ++ "," ++ Json.renderElems rest

/-- Comma-separated rendering of object members. -/
def Json.renderFields : List (String × Json) → String
  | [] => ""
  | [f] => "\"" ++ f.1 ++ "\":" ++ f.2.render
  | f :: rest => "\"" ++ f.1 ++ "\":" ++ f.2.render ++ "," ++ Json.renderFields rest

end

/-- Struct `jsonRPCResponse` from `client.go`: the `Error` field is a
`json.RawMessage`; `none` models the empty raw message (field absent or
empty), `some j` models raw bytes holding the JSON value `j`. -/
structure jsonRPCResponse where
  result : Option Json
  error : Option Json
  id : Int

/-- Struct `jsonRPCError` from `client.go`. -/
structure jsonRPCError where
  code : Int
  message : String
deriving DecidableEq

/-- ASCII lowercasing, character-wise (Go's JSON decoder matches struct
keys case-insensitively). -/
def strToLower (s : String) : String :=
  String.mk (s.toList.map Char.toLower)

/-- Go `json.Unmarshal` of a JSON value into the `jsonRPCError` struct:
succeeds on `null` (no-op) and on objects whose `code`/`message` members
(matched case-insensitively, later duplicates overriding, `null` members
ignored) have the right types; fails on every other value and on any
type-mismatched member. -/
def unmarshalErrObj : Json → Option jsonRPCError
  | .null => some ⟨0, ""⟩
  | .obj fields =>
      fields.foldlM
        (fun (acc : jsonRPCError) f =>
          if strToLower f.1 = "code" then
            match f.2 with
            | .num n => some ⟨n, acc.message⟩
            | .null => some acc
            | _ => none
          else if strToLower f.1 = "message" then
            match f.2 with
            | .str s => some ⟨acc.code, s⟩
            | .null => some acc
            | _ => none
          else some acc)
        ⟨0, ""⟩
  | _ => none

/-- Method `jsonRPCResponse.GetError` from `client.go`: empty error field gives
`none`; otherwise try the object form, then the bare-string form, then
fall back to the raw text as the message. -/
def jsonRPCResponse.GetError (r : jsonRPCResponse) : Option jsonRPCError :=
  match r.error with
  | none => none
  | some j =>
      match unmarshalErrObj j with
      | some errObj => some errObj
      | none =>
          match j with
          | .str s => some ⟨0, s⟩
          | _ => some ⟨0, j.render⟩

/-- Struct `toolContent` from `client.go`. -/
structure toolContent where
  type : String
  text : String
deriving DecidableEq

/-- Struct `toolResult` from `client.go`. -/
structure toolResult where
  content : List toolContent
  isError : Bool
deriving DecidableEq

/-- Failure classes `callTool` can report. -/
inductive callFailure where
  | rpcError (code : Int) (message : String)
  | unmarshalFailed
  | toolError (message : String)
deriving DecidableEq

/-- The response-handling tail of `callTool` from `client.go`, applied to
an already-received envelope; `decodeResult` is the `json.Unmarshal` of
the `result` raw message into `toolResult`. -/
def handleToolResponse (decodeResult : Option Json → Option toolResult)
    (resp : jsonRPCResponse) : Except callFailure toolResult :=
  match resp.GetError with
  | some errObj => .error (.rpcError errObj.code errObj.message)
  | none =>
      match decodeResult resp.result with
      | none => .error .unmarshalFailed
      | some result =>
          if result.isError then
            match result.content with
            | c :: _ => .error (.toolError c.text)
            | [] => .error (.toolError "unknown error")
          else .ok result

/-- Go's `strings.HasPrefix`, character-wise (every prefix tested in the
embedded code is ASCII, where bytes and characters coincide). -/
def strStartsWith (s pre : String) : Bool :=
  pre.toList.isPrefixOf s.toList

/-- Dropping the first `n` characters of a string, the effect of Go's
`strings.TrimPrefix` once the prefix of `n` ASCII characters is known to
be present. -/
def strDrop (s : String) (n : Nat) : String :=
  String.mk (s.toList.drop n)

/-- The error the scan ends with when no event matched; the source
message interpolates the request ID (`no response received for request
ID %d`). -/
def noResponseMsg : String :=
  "no response received for request ID"

/-- Function `parseSSEResponse` from `client.go`, over the list of lines the
`bufio.Scanner` yields and an unmarshal oracle `u` for the accumulated
data buffer.  The last argument threads the `dataBuffer`; `"data: "` has
six characters, so the trimmed payload is the line minus its first
six. -/
def parseSSEResponse (u : String → Option jsonRPCResponse) (expectedID : Int) :
    List String → String → Except String jsonRPCResponse
  | [], _ => .error noResponseMsg
  | line :: rest, buf =>
      if strStartsWith line "data: " then
        parseSSEResponse u expectedID rest (buf ++ strDrop line 6)
      else if line = "" ∧ buf.length > 0 then
        match u buf with
        | none => parseSSEResponse u expectedID rest ""
        | some resp =>
            if resp.id = expectedID then .ok resp
            else parseSSEResponse u expectedID rest ""
      else
        parseSSEResponse u expectedID rest buf

/-- Event-level view of the same scan: the completed data buffers, in
order, that `parseSSEResponse` would attempt to parse (one per blank
line reached with a non-empty buffer). -/
def sseEvents : List String → String → List String
  | [], _ => []
  | line :: rest, buf =>
      if strStartsWith line "data: " then
        sseEvents rest (buf ++ strDrop line 6)
      else if line = "" ∧ buf.length > 0 then
        buf :: sseEvents rest ""
      else
        sseEvents rest buf

/-- The request-ID assignment step of `sendRequest` from `client.go`:
`reqID := c.requestID.Add(1)` on the client's `atomic.Int64`, which adds
one and returns the new value.  Result: the ID given to this request and
the updated counter. -/
def sendRequestId (requestID : Int) : Int × Int :=
  (requestID + 1, requestID + 1)

/-- The IDs issued by `n` successive `sendRequest` calls starting from
counter value `r`. -/
def issuedIds : Nat → Int → List Int
  | 0, _ => []
  | n + 1, r =>
      let step := sendRequestId r
      step.1 :: issuedIds n step.2

/-- The IDs issued by the first `n` `sendRequest` calls of one `Client`
instance.  A fresh `Client` leaves `requestID` at the `atomic.Int64` zero
value. -/
def clientIds (n : Nat) : List Int :=
  issuedIds n 0

/-- The per-instance state of `Client` from `client.go` that the
initialization handshake reads and writes. -/
structure ClientState where
  sessionID : String
  initialized : Bool

/-- Method `ensureInitialized` from `client.go`, with `transport` standing for
`sendRequest` at the granularity of one method call (HTTP and parameter
marshalling happen inside it).  Returns the outcome, the updated client
state, and the sequence of RPC methods actually sent. -/
def ensureInitialized (transport : String → Except String jsonRPCResponse)
    (s : ClientState) : Except String Unit × ClientState × List String :=
  if s.initialized then (.ok (), s, [])
  else
    match transport "initialize" with
    | .error e => (.error ("failed to initialize MCP session: " ++ e), s, ["initialize"])
    | .ok resp =>
        match resp.GetError with
        | some errObj =>
            (.error ("MCP initialize error: " ++ errObj.message), s, ["initialize"])
        | none =>
            match transport "notifications/initialized" with
            | .error e =>
                (.error ("failed to send initialized notification: " ++ e), s,
                  ["initialize", "notifications/initialized"])
            | .ok _ =>
                (.ok (), { s with initialized := true },
                  ["initialize", "notifications/initialized"])

/-! ## PKCE generator (OAuth client file, `GeneratePKCE`) -/

/-- The URL-safe base64 alphabet used by Go's `base64.RawURLEncoding`. -/
def base64URLChars : List Char :=
  "ABCDEFGHIJKLMNOPQRSTUVWXYZabcdefghijklmnopqrstuvwxyz0123456789-_".toList

/-- Character at a given index of the URL-safe base64 alphabet. -/
def b64Char (n : Nat) : Char :=
  base64URLChars.getD n 'A'

/-- Go's `base64.RawURLEncoding.EncodeToString` over a byte list
(bytes as naturals below 256): groups of three bytes become four
characters, a trailing two-byte group three characters, a trailing
one-byte group two characters, and no padding is appended. -/
def base64RawURLEncode : List Nat → List Char
  | b0 :: b1 :: b2 :: rest =>
      b64Char (b0 / 4) :: b64Char (b0 % 4 * 16 + b1 / 16) ::
        b64Char (b1 % 16 * 4 + b2 / 64) :: b64Char (b2 % 64) ::
        base64RawURLEncode rest
  | [b0, b1] => [b64Char (b0 / 4), b64Char (b0 % 4 * 16 + b1 / 16), b64Char (b1 % 16 * 4)]
  | [b0] => [b64Char (b0 / 4), b64Char (b0 % 4 * 16)]
  | [] => []

/-- Struct `PKCEPair` from the OAuth client file. -/
structure PKCEPair where
  CodeVerifier : String
  CodeChallenge : String
deriving DecidableEq

/-- Method `GeneratePKCE` from the OAuth client file, with the `crypto/rand`
bytes passed in as `verifierBytes` and the `crypto/sha256` primitive as
the oracle `sha256Hash` (acting on the UTF-8 bytes of its string
argument and returning the 32 digest bytes). -/
def GeneratePKCE (sha256Hash : String → List Nat) (verifierBytes : List Nat) : PKCEPair :=
  let codeVerifier := String.mk (base64RawURLEncode verifierBytes)
  let codeChallenge := String.mk (base64RawURLEncode (sha256Hash codeVerifier))
  { CodeVerifier := codeVerifier, CodeChallenge := codeChallenge }

/-! ## Token refresh (OAuth client `RefreshToken`, `cmd` refresh gate) -/

/-- Type `Backend` from `internal/gotion/config`. -/
inductive Backend where
  | api : Backend
  | mcp : Backend
deriving DecidableEq

/-- Struct `Config` from `internal/gotion/config`. -/
structure Config where
  token : String
  clientID : String
  clientSecret : String
  backend : Backend
deriving DecidableEq

/-- Struct `TokenData` from `internal/gotion/config`. -/
structure TokenData where
  backend : Backend
  accessToken : String
  tokenType : String
  botID : String
  workspaceID : String
  workspaceName : String
  clientID : String
  refreshToken : String
  expiresAt : Int
deriving DecidableEq

/-- Struct `OAuthToken` from the OAuth client file; string and integer fields
missing from a decoded body hold their Go zero values. -/
structure OAuthToken where
  accessToken : String
  tokenType : String
  expiresIn : Int
  refreshToken : String
  scope : String
  expiresAt : Int
deriving DecidableEq

/-- The tail of `RefreshToken` from the OAuth client file, after a 200
response body decoded to `token`: reject a missing `access_token`, then
set the absolute expiry from `expires_in` when it is positive. -/
def refreshTokenFinalize (now : Int) (token : OAuthToken) : Except String OAuthToken :=
  if token.accessToken = "" then .error "no access_token in refresh response"
  else
    .ok { token with
          expiresAt := if token.expiresIn > 0 then now + token.expiresIn else token.expiresAt }

/-- Outcome of the pre-command refresh gate: the record it saves (if
any) and the error it returns (`none` is Go `nil`). -/
structure GateResult where
  saved : Option TokenData
  err : Option String
deriving DecidableEq

/-- Function `refreshTokenIfNeeded` from the `cmd` root file.  `needsRefresh`
stands for `TokenData.NeedsRefresh` (declared outside the embedded
sources), `loadToken`/`loadConfig` for `config.LoadToken`/`config.Load`
(with `none` for a load error), `refreshOutcome` for the result of
`mcp.RefreshToken`, and `saveErr` for the result of `config.SaveToken`
when a save happens. -/
def refreshTokenIfNeeded (needsRefresh : TokenData → Bool)
    (loadToken : Option TokenData) (loadConfig : Option Config)
    (refreshOutcome : Except String OAuthToken) (saveErr : Option String) : GateResult :=
  match loadToken with
  | none => { saved := none, err := none }
  | some tokenData =>
      if ! needsRefresh tokenData then { saved := none, err := none }
      else
        match loadConfig with
        | none => { saved := none, err := none }
        | some cfg =>
            if cfg.backend ≠ Backend.mcp then { saved := none, err := none }
            else
              match refreshOutcome with
              | .error _ => { saved := none, err := none }
              | .ok newToken =>
                  let refreshedData : TokenData :=
                    { backend := tokenData.backend
                      accessToken := newToken.accessToken
                      tokenType := newToken.tokenType
                      botID := ""
                      workspaceID := ""
                      workspaceName := ""
                      clientID := tokenData.clientID
                      refreshToken := newToken.refreshToken
                      expiresAt := newToken.expiresAt }
                  let refreshedData :=
                    if refreshedData.refreshToken = "" then
                      { refreshedData with refreshToken := tokenData.refreshToken }
                    else refreshedData
                  { saved := some refreshedData, err := saveErr }

/-! ## Loopback callback server (`internal/gotion` callback file) -/

/-- Go `url.Values.Get`: the first value associated with the key, or the
empty string when the key is absent. -/
def queryGet (q : List (String × String)) (key : String) : String :=
  match q.find? (fun p => p.1 == key) with
  | some p => p.2
  | none => ""

/-- The four ways the callback handler can settle the wait. -/
inductive CallbackOutcome where
  | denied (errCode : String) : CallbackOutcome
  | stateMismatch : CallbackOutcome
  | missingCode : CallbackOutcome
  | success (code state : String) : CallbackOutcome
deriving DecidableEq

/-- The static failure page the handler writes, parameterised by the
interpolated message. -/
def failurePage (msg : String) : String :=
  "<html><body><h1>Authentication Failed</h1><p>" ++ msg ++
    "</p><p>You can close this window.</p></body></html>"

/-- The static success page the handler writes. -/
def successPage : String :=
  "<html><body><h1>Authentication Successful!</h1>" ++
    "<p>You can close this window and return to the terminal.</p></body></html>"

/-- The query-handling body of the `/callback` handler inside
`CallbackServer.Start`: the outcome recorded for the wait and the HTML
body written to the HTTP client. -/
def handleCallback (expectedState : String) (query : List (String × String)) :
    CallbackOutcome × String :=
  let errCode := queryGet query "error"
  if errCode ≠ "" then (.denied errCode, failurePage errCode)
  else
    let state := queryGet query "state"
    if expectedState ≠ "" ∧ state ≠ expectedState then
      (.stateMismatch, failurePage "State mismatch")
    else
      let code := queryGet query "code"
      if code = "" then (.missingCode, failurePage "No authorization code received")
      else (.success code state, successPage)

/-- Modelled from the spec: the callback decision rule exactly as the
specification words it ("if `state` is present and does not equal
`expectedState`, fail with StateMismatch"), used only to compare the
spec's rule with the implemented `handleCallback`. -/
def handleCallbackSpec (expectedState : String) (query : List (String × String)) :
    CallbackOutcome :=
  if queryGet query "error" ≠ "" then .denied (queryGet query "error")
  else if (query.any fun p => p.1 == "state") ∧ queryGet query "state" ≠ expectedState then
    .stateMismatch
  else if queryGet query "code" = "" then .missingCode
  else .success (queryGet query "code") (queryGet query "state")

/-- The fields of `CallbackServer` the handler and the wait read and
write, with `doneClosed` modelling whether the `done` channel has been
closed. -/
structure ServerState where
  code : String
  state : String
  err : Option String
  doneClosed : Bool
deriving DecidableEq

/-- Result of serving one HTTP request: a non-callback path is answered
404 without touching the wait; otherwise the handler writes a body and
then executes `close(s.done)`, which panics when the channel is already
closed (the write side effects before the `close` still happen). -/
inductive HandlerStep where
  | notFound (s : ServerState) : HandlerStep
  | responded (s : ServerState) (body : String) : HandlerStep
  | panicked (s : ServerState) (body : String) : HandlerStep
deriving DecidableEq

/-- One invocation of the handler registered by `CallbackServer.Start`,
over the request path and query and the current server state. -/
def serveCallbackRequest (expectedState : String) (path : String)
    (query : List (String × String)) (s : ServerState) : HandlerStep :=
  if path ≠ "/callback" then .notFound s
  else
    let handled := handleCallback expectedState query
    let s1 :=
      match handled.1 with
      | .denied errCode => { s with err := some ("OAuth error: " ++ errCode) }
      | .stateMismatch => { s with err := some "state mismatch" }
      | .missingCode => { s with err := some "no authorization code received" }
      | .success c st => { s with code := c, state := st }
    if s.doneClosed then .panicked s1 handled.2
    else .responded { s1 with doneClosed := true } handled.2

/-! ## Helper lemmas -/

theorem issuedIds_eq (n : Nat) :
    ∀ r : Int, issuedIds n r = (List.range n).map (fun i : Nat => r + (i : Int) + 1) := by
  induction n with
  | zero => intro r; simp [issuedIds]
  | succ n ih =>
      intro r
      have hstep : issuedIds (n + 1) r = (r + 1) :: issuedIds n (r + 1) := rfl
      rw [hstep, ih (r + 1), List.range_succ_eq_map, List.map_cons, List.map_map]
      congr 1
      · push_cast; ring
      · refine List.map_congr_left fun i _ => ?_
        simp only [Function.comp_apply]
        push_cast
        ring

theorem b64Char_mem : ∀ n : Nat, n < 64 → b64Char n ∈ base64URLChars := by
  decide

theorem base64RawURLEncode_length (bs : List Nat) :
    (base64RawURLEncode bs).length =
      4 * (bs.length / 3) + (if bs.length % 3 = 0 then 0 else bs.length % 3 + 1) := by
  match bs with
  | [] => simp [base64RawURLEncode]
  | [b0] => simp [base64RawURLEncode]
  | [b0, b1] => simp [base64RawURLEncode]
  | b0 :: b1 :: b2 :: rest =>
      have ih := base64RawURLEncode_length rest
      simp only [base64RawURLEncode, List.length_cons, ih]
      split_ifs <;> omega

theorem base64RawURLEncode_charset (bs : List Nat) (hb : ∀ b ∈ bs, b < 256) :
    ∀ c ∈ base64RawURLEncode bs, c ∈ base64URLChars := by
  match bs with
  | [] => intro c hc; simp [base64RawURLEncode] at hc
  | [b0] =>
      have h0 : b0 < 256 := hb b0 (by simp)
      intro c hc
      simp only [base64RawURLEncode, List.mem_cons, List.not_mem_nil, or_false] at hc
      rcases hc with h | h <;> subst h <;> (refine b64Char_mem _ ?_; omega)
  | [b0, b1] =>
      have h0 : b0 < 256 := hb b0 (by simp)
      have h1 : b1 < 256 := hb b1 (by simp)
      intro c hc
      simp only [base64RawURLEncode, List.mem_cons, List.not_mem_nil, or_false] at hc
      rcases hc with h | h | h <;> subst h <;> (refine b64Char_mem _ ?_; omega)
  | b0 :: b1 :: b2 :: rest =>
      have h0 : b0 < 256 := hb b0 (by simp)
      have h1 : b1 < 256 := hb b1 (by simp)
      have h2 : b2 < 256 := hb b2 (by simp)
      have ih := base64RawURLEncode_charset rest (fun b hmem => hb b (by simp [hmem]))
      intro c hc
      simp only [base64RawURLEncode, List.mem_cons] at hc
      rcases hc with h | h | h | h | h
      · subst h; refine b64Char_mem _ ?_; omega
      · subst h; refine b64Char_mem _ ?_; omega
      · subst h; refine b64Char_mem _ ?_; omega
      · subst h; refine b64Char_mem _ ?_; omega
      · exact ih c h

/-! ## Claim theorems -/

/-- C2: over any `N` calls to `sendRequest` on one client instance, the
assigned request IDs are exactly the strictly increasing integers
`1, 2, ..., N`: the first issued ID is `1`, each later one is the
previous plus one, and none is reused or reset. -/
theorem clientIds_strictly_increasing (n : Nat) :
    clientIds n = (List.range n).map (fun i : Nat => (i : Int) + 1) ∧
    List.Pairwise (fun a b : Int => a < b) (clientIds n) := by
  have h : clientIds n = (List.range n).map (fun i : Nat => (i : Int) + 1) := by
    rw [clientIds, issuedIds_eq]
    exact List.map_congr_left fun i _ => by ring
  refine ⟨h, ?_⟩
  rw [h, List.pairwise_map]
  refine (List.pairwise_lt_range n).imp ?_
  intro a b hab
  omega

/-- C3: every PKCE pair `GeneratePKCE` builds from 32 random bytes has as
code verifier the unpadded base64url encoding of those bytes — exactly 43
characters, inside the RFC 7636 bound of 43 to 128, drawn only from the
URL-safe base64 alphabet — and as code challenge the unpadded base64url
encoding of the SHA-256 digest of the encoded verifier string. -/
theorem GeneratePKCE_spec (sha256Hash : String → List Nat) (bs : List Nat)
    (hlen : bs.length = 32) (hb : ∀ b ∈ bs, b < 256) :
    (GeneratePKCE sha256Hash bs).CodeVerifier = String.mk (base64RawURLEncode bs) ∧
    (GeneratePKCE sha256Hash bs).CodeVerifier.length = 43 ∧
    43 ≤ (GeneratePKCE sha256Hash bs).CodeVerifier.length ∧
    (GeneratePKCE sha256Hash bs).CodeVerifier.length ≤ 128 ∧
    (∀ c ∈ (GeneratePKCE sha256Hash bs).CodeVerifier.toList, c ∈ base64URLChars) ∧
    (GeneratePKCE sha256Hash bs).CodeChallenge =
      String.mk (base64RawURLEncode (sha256Hash (GeneratePKCE sha256Hash bs).CodeVerifier)) := by
  have henc : (base64RawURLEncode bs).length = 43 := by
    rw [base64RawURLEncode_length, hlen]
    norm_num
  have hv : (GeneratePKCE sha256Hash bs).CodeVerifier = String.mk (base64RawURLEncode bs) := rfl
  have hlength : (GeneratePKCE sha256Hash bs).CodeVerifier.length = 43 := by
    rw [hv]
    show (base64RawURLEncode bs).length = 43
    exact henc
  refine ⟨hv, hlength, by omega, by omega, ?_, rfl⟩
  intro c hc
  refine base64RawURLEncode_charset bs hb c ?_
  rw [hv] at hc
  exact hc

/-- Witness for C3: the all-zero 32-byte string and a constant hash
oracle satisfy the hypotheses, and the verifier indeed has 43
characters. -/
theorem GeneratePKCE_spec_witness :
    (List.replicate 32 0).length = 32 ∧
    (∀ b ∈ List.replicate 32 0, b < 256) ∧
    (GeneratePKCE (fun _ => List.replicate 32 0) (List.replicate 32 0)).CodeVerifier.length = 43 :=
  ⟨by decide, by decide,
    (GeneratePKCE_spec (fun _ => List.replicate 32 0) (List.replicate 32 0)
      (by decide) (by decide)).2.1⟩

theorem parseSSE_data_line (u : String → Option jsonRPCResponse) (eid : Int)
    (line : String) (rest : List String) (buf : String)
    (h : strStartsWith line "data: " = true) :
    parseSSEResponse u eid (line :: rest) buf =
      parseSSEResponse u eid rest (buf ++ strDrop line 6) := by
  simp [parseSSEResponse, h]

theorem parseSSE_blank_line (u : String → Option jsonRPCResponse) (eid : Int)
    (rest : List String) (buf : String)
    (h1 : strStartsWith "" "data: " = false) (h2 : buf.length > 0) :
    parseSSEResponse u eid ("" :: rest) buf =
      match u buf with
      | none => parseSSEResponse u eid rest ""
      | some resp =>
          if resp.id = eid then .ok resp
          else parseSSEResponse u eid rest "" := by
  simp [parseSSEResponse, h1, h2]

theorem parseSSE_other_line (u : String → Option jsonRPCResponse) (eid : Int)
    (line : String) (rest : List String) (buf : String)
    (h1 : strStartsWith line "data: " = false) (h2 : ¬(line = "" ∧ buf.length > 0)) :
    parseSSEResponse u eid (line :: rest) buf = parseSSEResponse u eid rest buf := by
  simp [parseSSEResponse, h1, h2]

theorem sseEvents_data_line (line : String) (rest : List String) (buf : String)
    (h : strStartsWith line "data: " = true) :
    sseEvents (line :: rest) buf = sseEvents rest (buf ++ strDrop line 6) := by
  simp [sseEvents, h]

theorem sseEvents_blank_line (rest : List String) (buf : String)
    (h1 : strStartsWith "" "data: " = false) (h2 : buf.length > 0) :
    sseEvents ("" :: rest) buf = buf :: sseEvents rest "" := by
  simp [sseEvents, h1, h2]

theorem sseEvents_other_line (line : String) (rest : List String) (buf : String)
    (h1 : strStartsWith line "data: " = false) (h2 : ¬(line = "" ∧ buf.length > 0)) :
    sseEvents (line :: rest) buf = sseEvents rest buf := by
  simp [sseEvents, h1, h2]

theorem parseSSE_eq_events (u : String → Option jsonRPCResponse) (eid : Int) :
    ∀ (lines : List String) (buf : String),
      parseSSEResponse u eid lines buf =
        match ((sseEvents lines buf).filterMap u).find? (fun r => decide (r.id = eid)) with
        | some r => .ok r
        | none => .error noResponseMsg := by
  intro lines
  induction lines with
  | nil => intro buf; rfl
  | cons line rest ih =>
      intro buf
      rcases hsw : strStartsWith line "data: " with _ | _
      · by_cases h2 : line = "" ∧ buf.length > 0
        · obtain ⟨hline, hbuf⟩ := h2
          subst hline
          rw [sseEvents_blank_line rest buf hsw hbuf]
          cases hu : u buf with
          | none =>
              have hL : parseSSEResponse u eid ("" :: rest) buf =
                  parseSSEResponse u eid rest "" := by
                rw [parseSSE_blank_line u eid rest buf hsw hbuf, hu]
              have hR : List.filterMap u (buf :: sseEvents rest "") =
                  List.filterMap u (sseEvents rest "") := by
                rw [List.filterMap_cons, hu]
              rw [hL, hR]
              exact ih ""
          | some resp =>
              have hR : List.filterMap u (buf :: sseEvents rest "") =
                  resp :: List.filterMap u (sseEvents rest "") := by
                rw [List.filterMap_cons, hu]
              by_cases h3 : resp.id = eid
              · have hL : parseSSEResponse u eid ("" :: rest) buf = .ok resp := by
                  rw [parseSSE_blank_line u eid rest buf hsw hbuf, hu]
                  exact if_pos h3
                rw [hL, hR, List.find?_cons_of_pos _ (by simp [h3])]
              · have hL : parseSSEResponse u eid ("" :: rest) buf =
                    parseSSEResponse u eid rest "" := by
                  rw [parseSSE_blank_line u eid rest buf hsw hbuf, hu]
                  exact if_neg h3
                rw [hL, hR, List.find?_cons_of_neg _ (by simp [h3])]
                exact ih ""
        · rw [parseSSE_other_line u eid line rest buf hsw h2,
            sseEvents_other_line line rest buf hsw h2]
          exact ih buf
      · rw [parseSSE_data_line u eid line rest buf hsw,
          sseEvents_data_line line rest buf hsw]
        exact ih _

/-- C1: on the SSE path, `sendRequest` accumulates consecutive `data:`
payloads into a buffer, parses the buffer at each blank line, skips
events that fail to parse or whose `id` differs from this request's, and
returns exactly the first envelope whose `id` matches; a stream whose
events never match produces the no-response-received error.  In
particular, for a non-matching event followed by a matching one, the
second envelope is returned and the first discarded. -/
theorem parseSSEResponse_correct (u : String → Option jsonRPCResponse) (eid : Int) :
    (∀ lines buf,
      parseSSEResponse u eid lines buf =
        match ((sseEvents lines buf).filterMap u).find? (fun r => decide (r.id = eid)) with
        | some r => .ok r
        | none => .error noResponseMsg) ∧
    (∀ r1 r2 : jsonRPCResponse, r1.id ≠ eid → r2.id = eid →
      parseSSEResponse
        (fun s => if s = "event1" then some r1 else if s = "event2" then some r2 else none)
        eid ["data: event1", "", "data: event2", ""] "" = .ok r2) ∧
    (∀ lines buf, (∀ r ∈ (sseEvents lines buf).filterMap u, r.id ≠ eid) →
      parseSSEResponse u eid lines buf = .error noResponseMsg) := by
  refine ⟨parseSSE_eq_events u eid, ?_, ?_⟩
  · intro r1 r2 h1 h2
    set u2 : String → Option jsonRPCResponse :=
      fun s => if s = "event1" then some r1 else if s = "event2" then some r2 else none with hu2
    have hev : sseEvents ["data: event1", "", "data: event2", ""] "" = ["event1", "event2"] := by
      decide
    rw [parseSSE_eq_events u2 eid, hev]
    have hm1 : u2 "event1" = some r1 := by simp [hu2]
    have hm2 : u2 "event2" = some r2 := by simp [hu2]
    rw [List.filterMap_cons, hm1, List.filterMap_cons, hm2, List.filterMap_nil,
      List.find?_cons_of_neg _ (by simp [h1]), List.find?_cons_of_pos _ (by simp [h2])]
  · intro lines buf hall
    rw [parseSSE_eq_events u eid]
    have hnone :
        ((sseEvents lines buf).filterMap u).find? (fun r => decide (r.id = eid)) = none := by
      rw [List.find?_eq_none]
      intro r hr
      simp [hall r hr]
    rw [hnone]

/-- Witness for C1: two concrete SSE events, the first with request ID 7
and the second with the expected ID 2; the scan returns the second
envelope. -/
theorem parseSSEResponse_correct_witness :
    parseSSEResponse
      (fun s =>
        if s = "event1" then some { result := none, error := none, id := 7 }
        else if s = "event2" then some { result := none, error := none, id := 2 }
        else none)
      2 ["data: event1", "", "data: event2", ""] "" =
      .ok { result := none, error := none, id := 2 } :=
  (parseSSEResponse_correct (fun _ => none) 2).2.1
    { result := none, error := none, id := 7 }
    { result := none, error := none, id := 2 }
    (by decide) (by decide)

/-- C4: when the stored record needs refresh and the refresh endpoint
answers 200 with `access_token` `"new"` and `expires_in` 3600, the
record the gate saves carries access token `"new"` and expiry
`now + 3600`; the stored refresh token is carried over when the
response omits one (decoded as the empty string) and replaced when the
response carries one. -/
theorem refreshGate_merge (needs : TokenData → Bool) (td : TokenData) (cfg : Config)
    (now : Int) (raw : OAuthToken) (saveErr : Option String)
    (hneeds : needs td = true) (hbackend : cfg.backend = Backend.mcp)
    (haccess : raw.accessToken = "new") (hexp : raw.expiresIn = 3600) :
    (raw.refreshToken = "" →
      ∃ rec, (refreshTokenIfNeeded needs (some td) (some cfg)
          (refreshTokenFinalize now raw) saveErr).saved = some rec ∧
        rec.accessToken = "new" ∧ rec.refreshToken = td.refreshToken ∧
        rec.expiresAt = now + 3600) ∧
    (raw.refreshToken ≠ "" →
      ∃ rec, (refreshTokenIfNeeded needs (some td) (some cfg)
          (refreshTokenFinalize now raw) saveErr).saved = some rec ∧
        rec.accessToken = "new" ∧ rec.refreshToken = raw.refreshToken ∧
        rec.expiresAt = now + 3600) := by
  have hfin : refreshTokenFinalize now raw = .ok { raw with expiresAt := now + 3600 } := by
    rw [refreshTokenFinalize, haccess, hexp, if_neg (by decide), if_pos (by norm_num)]
  constructor
  · intro hrt
    have hgate : refreshTokenIfNeeded needs (some td) (some cfg)
        (refreshTokenFinalize now raw) saveErr =
        { saved := some
            { backend := td.backend
              accessToken := "new"
              tokenType := raw.tokenType
              botID := ""
              workspaceID := ""
              workspaceName := ""
              clientID := td.clientID
              refreshToken := td.refreshToken
              expiresAt := now + 3600 }
          err := saveErr } := by
      rw [hfin]
      simp [refreshTokenIfNeeded, hneeds, hbackend, hrt, haccess]
    refine ⟨{ backend := td.backend
              accessToken := "new"
              tokenType := raw.tokenType
              botID := ""
              workspaceID := ""
              workspaceName := ""
              clientID := td.clientID
              refreshToken := td.refreshToken
              expiresAt := now + 3600 }, ?_, rfl, rfl, rfl⟩
    rw [hgate]
  · intro hrt
    have hgate : refreshTokenIfNeeded needs (some td) (some cfg)
        (refreshTokenFinalize now raw) saveErr =
        { saved := some
            { backend := td.backend
              accessToken := "new"
              tokenType := raw.tokenType
              botID := ""
              workspaceID := ""
              workspaceName := ""
              clientID := td.clientID
              refreshToken := raw.refreshToken
              expiresAt := now + 3600 }
          err := saveErr } := by
      rw [hfin]
      simp [refreshTokenIfNeeded, hneeds, hbackend, hrt, haccess]
    refine ⟨{ backend := td.backend
              accessToken := "new"
              tokenType := raw.tokenType
              botID := ""
              workspaceID := ""
              workspaceName := ""
              clientID := td.clientID
              refreshToken := raw.refreshToken
              expiresAt := now + 3600 }, ?_, rfl, rfl, rfl⟩
    rw [hgate]

/-- Witness for C4: concrete refresh of `{refreshToken "r1", accessToken
"old"}` against a 200 body `{access_token "new", expires_in 3600}` with
no refresh token. -/
theorem refreshGate_merge_witness :
    ∃ rec,
      (refreshTokenIfNeeded (fun _ => true)
          (some { backend := .mcp, accessToken := "old", tokenType := "bearer", botID := "",
                  workspaceID := "", workspaceName := "", clientID := "cid",
                  refreshToken := "r1", expiresAt := 0 })
          (some { token := "", clientID := "", clientSecret := "", backend := .mcp })
          (refreshTokenFinalize 1000
            { accessToken := "new", tokenType := "bearer", expiresIn := 3600,
              refreshToken := "", scope := "", expiresAt := 0 })
          none).saved = some rec ∧
      rec.accessToken = "new" ∧ rec.refreshToken = "r1" ∧ rec.expiresAt = 1000 + 3600 :=
  (refreshGate_merge (fun _ => true)
    { backend := .mcp, accessToken := "old", tokenType := "bearer", botID := "",
      workspaceID := "", workspaceName := "", clientID := "cid",
      refreshToken := "r1", expiresAt := 0 }
    { token := "", clientID := "", clientSecret := "", backend := .mcp }
    1000
    { accessToken := "new", tokenType := "bearer", expiresIn := 3600,
      refreshToken := "", scope := "", expiresAt := 0 }
    none rfl rfl rfl rfl).1 rfl

/-- C8: a failed refresh never aborts the surrounding command: for every
error outcome of `RefreshToken` (discovery failure, non-200 response,
network error — all surfaced as its error return) the gate saves nothing,
leaving the persisted record untouched, and returns no error; moreover a
200 body missing `access_token` is itself such an error outcome. -/
theorem refreshGate_absorbs_failure (needs : TokenData → Bool) (td : TokenData)
    (cfg : Config) (e : String) (saveErr : Option String)
    (hneeds : needs td = true) (hbackend : cfg.backend = Backend.mcp) :
    refreshTokenIfNeeded needs (some td) (some cfg) (.error e) saveErr =
      { saved := none, err := none } ∧
    (∀ (now : Int) (raw : OAuthToken), raw.accessToken = "" →
      refreshTokenFinalize now raw = .error "no access_token in refresh response") := by
  constructor
  · simp [refreshTokenIfNeeded, hneeds, hbackend]
  · intro now raw h
    simp [refreshTokenFinalize, h]

/-- Witness for C8: a concrete failed refresh under a record that needs
refreshing on the MCP backend saves nothing and returns no error. -/
theorem refreshGate_absorbs_failure_witness :
    refreshTokenIfNeeded (fun _ => true)
        (some { backend := .mcp, accessToken := "old", tokenType := "bearer", botID := "",
                workspaceID := "", workspaceName := "", clientID := "cid",
                refreshToken := "r1", expiresAt := 0 })
        (some { token := "", clientID := "", clientSecret := "", backend := .mcp })
        (.error "failed to discover endpoints") none =
      { saved := none, err := none } :=
  (refreshGate_absorbs_failure (fun _ => true)
    { backend := .mcp, accessToken := "old", tokenType := "bearer", botID := "",
      workspaceID := "", workspaceName := "", clientID := "cid",
      refreshToken := "r1", expiresAt := 0 }
    { token := "", clientID := "", clientSecret := "", backend := .mcp }
    "failed to discover endpoints" none rfl rfl).1

/-- C6: `ensureInitialized` is idempotent per client instance: when the
first call on an uninitialized client succeeds, that call alone issued
the single `initialize` RPC (followed by the initialized notification),
the flag is set, and every later call — under any transport and any
server-rotated session ID — returns immediately without issuing any RPC,
so initialization is never re-run. -/
theorem ensureInitialized_idempotent (transport : String → Except String jsonRPCResponse)
    (s0 : ClientState) (h0 : s0.initialized = false)
    (hok : (ensureInitialized transport s0).1 = .ok ()) :
    (ensureInitialized transport s0).2.2 = ["initialize", "notifications/initialized"] ∧
    ((ensureInitialized transport s0).2.2.count "initialize") = 1 ∧
    (ensureInitialized transport s0).2.1.initialized = true ∧
    (∀ (transport2 : String → Except String jsonRPCResponse) (sid : String),
      ensureInitialized transport2
          { (ensureInitialized transport s0).2.1 with sessionID := sid } =
        (.ok (), { (ensureInitialized transport s0).2.1 with sessionID := sid }, [])) := by
  rcases htr : transport "initialize" with e | resp
  · have heval : ensureInitialized transport s0 =
        (.error ("failed to initialize MCP session: " ++ e), s0, ["initialize"]) := by
      simp [ensureInitialized, h0, htr]
    rw [heval] at hok
    exact absurd hok (by simp)
  · rcases hge : resp.GetError with _ | errObj
    · rcases hnt : transport "notifications/initialized" with e2 | r2
      · have heval : ensureInitialized transport s0 =
            (.error ("failed to send initialized notification: " ++ e2), s0,
              ["initialize", "notifications/initialized"]) := by
          simp [ensureInitialized, h0, htr, hge, hnt]
        rw [heval] at hok
        exact absurd hok (by simp)
      · have hrun : ensureInitialized transport s0 =
            (.ok (), { s0 with initialized := true },
              ["initialize", "notifications/initialized"]) := by
          simp [ensureInitialized, h0, htr, hge, hnt]
        rw [hrun]
        refine ⟨rfl, rfl, rfl, ?_⟩
        intro transport2 sid
        rfl
    · have heval : ensureInitialized transport s0 =
          (.error ("MCP initialize error: " ++ errObj.message), s0, ["initialize"]) := by
        simp [ensureInitialized, h0, htr, hge]
      rw [heval] at hok
      exact absurd hok (by simp)

/-- Witness for C6: a transport answering every method with an error-free
envelope; the successful first call issues exactly the initialize
handshake. -/
theorem ensureInitialized_idempotent_witness :
    (ensureInitialized (fun _ => .ok { result := none, error := none, id := 1 })
        { sessionID := "", initialized := false }).2.2 =
      ["initialize", "notifications/initialized"] :=
  (ensureInitialized_idempotent (fun _ => .ok { result := none, error := none, id := 1 })
    { sessionID := "", initialized := false } rfl rfl).1

/-- C7 counterexample: an envelope whose error field holds JSON `null` is
non-empty, yet `GetError` returns code 0 with an empty message — not the
field's raw text `"null"` as the claim's fallback clause prescribes for
values that are neither objects nor strings. -/
theorem getError_null_counterexample :
    jsonRPCResponse.GetError { result := none, error := some .null, id := 1 } =
      some { code := 0, message := "" } ∧
    Json.render .null = "null" ∧
    ({ code := 0, message := "" } : jsonRPCError) ≠ { code := 0, message := "null" } :=
  ⟨rfl, rfl, by decide⟩

/-- C7 (amended): a non-empty error field is always surfaced as a
structured RPC error (code and message) and never as a transport
failure — decoded from the object form when it unmarshals, from a bare
string as the message, from any other JSON value except `null` as its
raw text, and from `null` as an empty error object — while `GetError`
returns nil exactly when the error field is empty. -/
theorem getError_surfaced (r : jsonRPCResponse)
    (decodeResult : Option Json → Option toolResult) :
    (r.GetError = none ↔ r.error = none) ∧
    (∀ j errObj, r.error = some j → unmarshalErrObj j = some errObj →
      r.GetError = some errObj) ∧
    (∀ s, r.error = some (.str s) → r.GetError = some { code := 0, message := s }) ∧
    (∀ j, r.error = some j → unmarshalErrObj j = none → (∀ s, j ≠ .str s) →
      r.GetError = some { code := 0, message := j.render }) ∧
    (r.error = some .null → r.GetError = some { code := 0, message := "" }) ∧
    (∀ errObj, r.GetError = some errObj →
      handleToolResponse decodeResult r = .error (.rpcError errObj.code errObj.message)) := by
  refine ⟨?_, ?_, ?_, ?_, ?_, ?_⟩
  · cases hr : r.error with
    | none => simp [jsonRPCResponse.GetError, hr]
    | some j =>
        simp only [jsonRPCResponse.GetError, hr]
        rcases hm : unmarshalErrObj j with _ | eo
        · cases j <;> simp
        · simp
  · intro j errObj hr hm
    simp [jsonRPCResponse.GetError, hr, hm]
  · intro s hr
    simp [jsonRPCResponse.GetError, hr, unmarshalErrObj]
  · intro j hr hm hs
    simp only [jsonRPCResponse.GetError, hr, hm]
  · intro hr
    simp [jsonRPCResponse.GetError, hr, unmarshalErrObj]
  · intro errObj hge
    simp [handleToolResponse, hge]

/-- Witness for C7: a bare-string error `"boom"` becomes the structured
error with code 0 and message `"boom"`. -/
theorem getError_surfaced_witness :
    jsonRPCResponse.GetError { result := none, error := some (.str "boom"), id := 1 } =
      some { code := 0, message := "boom" } :=
  (getError_surfaced { result := none, error := some (.str "boom"), id := 1 }
    (fun _ => none)).2.2.1 "boom" rfl

/-- C5 counterexample: with expected state `abc123` and a callback query
carrying a code but no state parameter, the claim's rule (state checked
only when the parameter is present) reaches the code check and succeeds,
while the implementation compares the absent state as the empty string
and fails with the state-mismatch error. -/
theorem handleCallback_spec_counterexample :
    handleCallbackSpec "abc123" [("code", "xyz")] = .success "xyz" "" ∧
    (handleCallback "abc123" [("code", "xyz")]).1 = .stateMismatch ∧
    (CallbackOutcome.success "xyz" "" ≠ .stateMismatch) :=
  ⟨by decide, by decide, by decide⟩

/-- C5 (amended): the callback outcome is decided by checks in the
source's fixed order — the error parameter first; then state validation,
which fires whenever the expected state is non-empty and the state
parameter (read as the empty string when absent) differs from it; then
the code presence check; otherwise success — and every branch answers
the HTTP client with the corresponding static HTML page. -/
theorem handleCallback_order (expected : String) (q : List (String × String)) :
    (queryGet q "error" ≠ "" →
      handleCallback expected q =
        (.denied (queryGet q "error"), failurePage (queryGet q "error"))) ∧
    (queryGet q "error" = "" → expected ≠ "" → queryGet q "state" ≠ expected →
      handleCallback expected q = (.stateMismatch, failurePage "State mismatch")) ∧
    (queryGet q "error" = "" → (expected = "" ∨ queryGet q "state" = expected) →
      queryGet q "code" = "" →
      handleCallback expected q =
        (.missingCode, failurePage "No authorization code received")) ∧
    (queryGet q "error" = "" → (expected = "" ∨ queryGet q "state" = expected) →
      queryGet q "code" ≠ "" →
      handleCallback expected q =
        (.success (queryGet q "code") (queryGet q "state"), successPage)) := by
  refine ⟨?_, ?_, ?_, ?_⟩
  · intro he
    simp [handleCallback, he]
  · intro he hexp hst
    simp [handleCallback, he, hexp, hst]
  · intro he hor hcode
    have hcond : ¬(expected ≠ "" ∧ queryGet q "state" ≠ expected) := by
      rcases hor with h | h <;> simp [h]
    simp [handleCallback, he, hcond, hcode]
  · intro he hor hcode
    have hcond : ¬(expected ≠ "" ∧ queryGet q "state" ≠ expected) := by
      rcases hor with h | h <;> simp [h]
    simp [handleCallback, he, hcond, hcode]

/-- Witness for C5: the spec's state-mismatch scenario — callback with
`state=wrong` against expected state `abc123` yields the mismatch
outcome and the failure page. -/
theorem handleCallback_order_witness :
    handleCallback "abc123" [("state", "wrong")] =
      (.stateMismatch, failurePage "State mismatch") :=
  (handleCallback_order "abc123" [("state", "wrong")]).2.1 (by decide) (by decide) (by decide)

/-- C10: with a non-empty expected state, a callback query carrying a
code but no state parameter at all is compared as the empty string and
fails the state check rather than succeeding or reaching the
missing-code check; with an empty expected state, state validation is
disabled entirely and the mismatch outcome is unreachable. -/
theorem handleCallback_absent_state (expected : String) (q : List (String × String)) :
    (expected ≠ "" → (∀ p ∈ q, p.1 ≠ "state") → queryGet q "error" = "" →
      queryGet q "code" ≠ "" →
      (handleCallback expected q).1 = .stateMismatch) ∧
    (∀ q2 : List (String × String), (handleCallback "" q2).1 ≠ .stateMismatch) := by
  constructor
  · intro hexp hnostate he hcode
    have hst : queryGet q "state" = "" := by
      rw [queryGet]
      have : q.find? (fun p => p.1 == "state") = none := by
        rw [List.find?_eq_none]
        intro p hp
        simp [hnostate p hp]
      rw [this]
    have hns : ¬("" = expected) := fun h => hexp h.symm
    simp [handleCallback, he, hexp, hst, hns]
  · intro q2
    simp only [handleCallback]
    split_ifs <;> simp_all

/-- Witness for C10: expected state `abc123`, query carrying only a
code. -/
theorem handleCallback_absent_state_witness :
    (handleCallback "abc123" [("code", "xyz")]).1 = .stateMismatch :=
  (handleCallback_absent_state "abc123" [("code", "xyz")]).1
    (by decide) (by decide) (by decide) (by decide)

/-- C9: the completion channel is closed without a single-shot guard:
the first `/callback` request completes the wait exactly once, but a
second callback request served before shutdown re-runs the handler and
executes `close` on the already-closed done channel, which panics
(recovered by the HTTP server, dropping that connection) instead of
being accepted and discarded without effect. -/
theorem serveCallbackRequest_double_close_panics :
    (serveCallbackRequest "abc123" "/callback" [("code", "xyz"), ("state", "abc123")]
        { code := "", state := "", err := none, doneClosed := false } =
      .responded { code := "xyz", state := "abc123", err := none, doneClosed := true }
        successPage) ∧
    (serveCallbackRequest "abc123" "/callback" [("code", "xyz"), ("state", "abc123")]
        { code := "xyz", state := "abc123", err := none, doneClosed := true } =
      .panicked { code := "xyz", state := "abc123", err := none, doneClosed := true }
        successPage) :=
  ⟨by decide, by decide⟩

end Gotion
